import Mathlib

/-!
Verification of the resilient-connection core of the robo-python trading
client.  Each definition is a shallow embedding of the corresponding Python
function; theorems settle the specification claims against them.

Machine floats in the source carry small exact decimal amounts, so they are
modelled as rationals (`ℚ`); Python dictionaries probed only for key
presence are modelled as structures of `Bool` fields; fallible code is
modelled with `Except`.
-/

namespace RoboPython

/-! ## Message processor (src/connection/message_processor.py) -/

/-- An inbound frame, as probed by `_identify_message_type`: the relevant
keys' presence, plus the value of the generic `msg_type` tag when present. -/
structure Frame where
  has_tick : Bool := false
  has_proposal_open_contract : Bool := false
  has_balance : Bool := false
  has_authorize : Bool := false
  has_error : Bool := false
  has_ping : Bool := false
  has_pong : Bool := false
  has_website_status : Bool := false
  has_time : Bool := false
  has_buy : Bool := false
  has_sell : Bool := false
  has_proposal : Bool := false
  msg_type : Option String := none
  deriving Repr, DecidableEq

/-- `MessageProcessor._identify_message_type`: the chain of key-presence
checks, in source order. -/
def identifyMessageType (data : Frame) : String :=
  if data.has_tick then "tick"
  else if data.has_proposal_open_contract then "contract_update"
  else if data.has_balance then "balance"
  else if data.has_authorize then "authorize"
  else if data.has_error then "error"
  else if data.has_ping || data.has_pong then "ping_pong"
  else if data.has_website_status then "website_status"
  else if data.has_time then "server_time"
  else if data.has_buy || data.has_sell || data.has_proposal then "trading"
  else match data.msg_type with
       | some t => t
       | none => "unknown"

/-- The spec's priority list for classification: each entry pairs the key
predicate with the type label, in the spec's order (tick, position-status
payload, balance, authorization result, error, ping/pong, service-status,
server-time, trade-echo). -/
def specPriorityList : List ((Frame → Bool) × String) :=
  [ (fun f => f.has_tick, "tick"),
    (fun f => f.has_proposal_open_contract, "contract_update"),
    (fun f => f.has_balance, "balance"),
    (fun f => f.has_authorize, "authorize"),
    (fun f => f.has_error, "error"),
    (fun f => f.has_ping || f.has_pong, "ping_pong"),
    (fun f => f.has_website_status, "website_status"),
    (fun f => f.has_time, "server_time"),
    (fun f => f.has_buy || f.has_sell || f.has_proposal, "trading") ]

/-- Modelled from the spec's words: first-match classification over the
priority list, falling back to the generic `msg_type` tag, else `unknown`. -/
def classifySpec (data : Frame) : String :=
  match specPriorityList.find? (fun kv => kv.1 data) with
  | some kv => kv.2
  | none =>
      match data.msg_type with
      | some t => t
      | none => "unknown"

/-- **C7** — For every inbound frame, the classifier returns the first
matching type in the spec's priority order (tick, position-status payload,
balance, authorization result, error, ping/pong, service-status,
server-time, trade-echo, generic `msg_type` tag, else unknown): the source
chain agrees with first-match classification over the spec's ordered
priority list, so a frame matching an earlier key is never classified as a
later type. -/
theorem identifyMessageType_eq_classifySpec (data : Frame) :
    identifyMessageType data = classifySpec data := by
  unfold identifyMessageType classifySpec specPriorityList
  cases h1 : data.has_tick <;>
    cases h2 : data.has_proposal_open_contract <;>
    cases h3 : data.has_balance <;>
    cases h4 : data.has_authorize <;>
    cases h5 : data.has_error <;>
    simp [List.find?, h1, h2, h3, h4, h5] <;>
    cases h6 : data.has_ping <;>
    cases h7 : data.has_pong <;>
    cases h8 : data.has_website_status <;>
    cases h9 : data.has_time <;>
    simp [h6, h7, h8, h9] <;>
    cases h10 : data.has_buy <;>
    cases h11 : data.has_sell <;>
    cases h12 : data.has_proposal <;>
    simp [h10, h11, h12]

/-- Behaviour of a registered handler when invoked: it either returns
normally or raises an exception. -/
inductive HandlerBehavior where
  | ok
  | raise
  deriving Repr, DecidableEq

/-- Run a handler, surfacing a raised exception in the `Except` monad. -/
def runHandler : HandlerBehavior → Except String Unit
  | .ok => Except.ok ()
  | .raise => Except.error "handler exception"

/-- The four optional typed callbacks of `MessageProcessor`. -/
structure MessageCallbacks where
  tick_callback : Option HandlerBehavior := none
  contract_callback : Option HandlerBehavior := none
  balance_callback : Option HandlerBehavior := none
  error_callback : Option HandlerBehavior := none
  deriving Repr, DecidableEq

/-- The body of `MessageProcessor._dispatch_message`'s `try` block: the
`if`/`elif` chain that invokes at most one typed handler.  A raised handler
exception (or a `KeyError` from the payload access) surfaces as
`Except.error`. -/
def dispatchBody (cbs : MessageCallbacks) (message_type : String)
    (data : Frame) : Except String Unit :=
  if message_type == "tick" && cbs.tick_callback.isSome then
    if data.has_tick then runHandler (cbs.tick_callback.getD .ok)
    else Except.error "KeyError"
  else if message_type == "contract_update" && cbs.contract_callback.isSome then
    if data.has_proposal_open_contract then runHandler (cbs.contract_callback.getD .ok)
    else Except.error "KeyError"
  else if message_type == "balance" && cbs.balance_callback.isSome then
    if data.has_balance then runHandler (cbs.balance_callback.getD .ok)
    else Except.error "KeyError"
  else if message_type == "error" && cbs.error_callback.isSome then
    if data.has_error then runHandler (cbs.error_callback.getD .ok)
    else Except.error "KeyError"
  else Except.ok ()

/-- `MessageProcessor._dispatch_message`: wraps the body in `try`/`except`,
which logs the failure and swallows it.  Returns `true` iff the `except`
branch logged a handler failure. -/
def dispatchMessage (cbs : MessageCallbacks) (message_type : String)
    (data : Frame) : Bool :=
  match dispatchBody cbs message_type data with
  | Except.ok _ => false
  | Except.error _ => true

/-- Counter state of `MessageProcessor` (plus an explicit counter for the
log records emitted by `_dispatch_message`'s `except` branch, which in the
source is a side effect on the logger). -/
structure ProcState where
  message_count : ℕ := 0
  error_count : ℕ := 0
  handler_errors_logged : ℕ := 0
  message_stats : List (String × ℕ) := []
  deriving Repr, DecidableEq

/-- `self.message_stats[t] = self.message_stats.get(t, 0) + 1`. -/
def statsBump : List (String × ℕ) → String → List (String × ℕ)
  | [], t => [(t, 1)]
  | (k, v) :: rest, t =>
      if k == t then (k, v + 1) :: rest else (k, v) :: statsBump rest t

/-- The default `ignored_message_types` set. -/
def ignoredMessageTypes : List String :=
  ["website_status", "msg_type", "pong", "ping"]

/-- `MessageProcessor._process_single_message`: bumps the message counter,
classifies, updates per-type stats, short-circuits ignored types, then
dispatches.  The outer `except` branch (which is what increments
`error_count`) only catches exceptions of the classification/stats stage;
`_dispatch_message` has already swallowed handler exceptions, so in this
embedding the body is total and the result is always `Except.ok`. -/
def processSingleMessage (cbs : MessageCallbacks) (ignored : List String)
    (st : ProcState) (data : Frame) : Except String ProcState :=
  let st1 := { st with message_count := st.message_count + 1 }
  let message_type := identifyMessageType data
  let st2 := { st1 with message_stats := statsBump st1.message_stats message_type }
  if message_type ∈ ignored then Except.ok st2
  else
    let logged := dispatchMessage cbs message_type data
    Except.ok { st2 with
      handler_errors_logged :=
        st2.handler_errors_logged + (if logged then 1 else 0) }

/-- **C8 counterexample** — a registered tick handler that raises: the
exception is caught inside `_dispatch_message` (so the entry point returns
normally) and logged, but the dispatcher's `error_count` stays 0 instead of
being incremented, refuting the claim that handler exceptions are counted
in the dispatcher's error counter. -/
theorem handler_exception_not_counted :
    dispatchBody { tick_callback := some .raise } "tick" { has_tick := true }
        = Except.error "handler exception" ∧
    processSingleMessage { tick_callback := some .raise } ignoredMessageTypes
        {} { has_tick := true }
      = Except.ok { message_count := 1, error_count := 0,
                    handler_errors_logged := 1,
                    message_stats := [("tick", 1)] } := by
  constructor <;> rfl

/-- **C8 (amended)** — For every classified frame with a registered handler,
a handler exception is caught and logged by `_dispatch_message` and never
propagated to the caller of the processing entry point, but it is *not*
counted in the dispatcher's `error_count` (which only counts failures of
the classification/stats stage): processing always returns normally with
`error_count` unchanged, `message_count` incremented, and, for a
non-ignored type whose dispatch body raises, exactly one handler-error log
record emitted. -/
theorem processSingleMessage_swallows_handler_errors
    (cbs : MessageCallbacks) (st : ProcState) (data : Frame) :
    ∃ st', processSingleMessage cbs ignoredMessageTypes st data = Except.ok st' ∧
      st'.error_count = st.error_count ∧
      st'.message_count = st.message_count + 1 ∧
      (identifyMessageType data ∉ ignoredMessageTypes →
        ∀ e, dispatchBody cbs (identifyMessageType data) data = Except.error e →
          st'.handler_errors_logged = st.handler_errors_logged + 1) := by
  by_cases hmem : identifyMessageType data ∈ ignoredMessageTypes
  · have h1 : processSingleMessage cbs ignoredMessageTypes st data =
        Except.ok { st with
                    message_count := st.message_count + 1,
                    message_stats :=
                      statsBump st.message_stats (identifyMessageType data) } := by
      unfold processSingleMessage
      simp [hmem]
    exact ⟨_, h1, rfl, rfl, fun h => absurd hmem h⟩
  · have h1 : processSingleMessage cbs ignoredMessageTypes st data =
        Except.ok { st with
                    message_count := st.message_count + 1,
                    message_stats :=
                      statsBump st.message_stats (identifyMessageType data),
                    handler_errors_logged := st.handler_errors_logged +
                      (if dispatchMessage cbs (identifyMessageType data) data
                       then 1 else 0) } := by
      unfold processSingleMessage
      simp [hmem]
    refine ⟨_, h1, rfl, rfl, fun _ e he => ?_⟩
    simp [dispatchMessage, he]

/-- Witness for the amended C8 theorem at a concrete raising handler. -/
theorem processSingleMessage_swallows_handler_errors_witness :
    ∃ st', processSingleMessage { tick_callback := some .raise }
        ignoredMessageTypes {} { has_tick := true } = Except.ok st' ∧
      st'.error_count = (({} : ProcState)).error_count ∧
      st'.message_count = (({} : ProcState)).message_count + 1 ∧
      (identifyMessageType { has_tick := true } ∉ ignoredMessageTypes →
        ∀ e, dispatchBody { tick_callback := some .raise }
            (identifyMessageType { has_tick := true }) { has_tick := true }
              = Except.error e →
          st'.handler_errors_logged = (({} : ProcState)).handler_errors_logged + 1) :=
  processSingleMessage_swallows_handler_errors
    { tick_callback := some .raise } {} { has_tick := true }

/-! ## Connection monitor (src/connection/connection_monitor.py) -/

/-- The five-level quality band of `ConnectionQuality`. -/
inductive ConnectionQuality where
  | excellent
  | good
  | fair
  | poor
  | critical
  deriving Repr, DecidableEq

/-- The metrics record sampled by the monitor (`ConnectionMetrics`). -/
structure ConnectionMetrics where
  latency_ms : ℚ := 0
  uptime_percentage : ℚ := 100
  message_rate_per_minute : ℚ := 0
  error_rate_percentage : ℚ := 0
  reconnection_count : ℕ := 0
  last_disconnection_duration : ℚ := 0
  deriving Repr, DecidableEq

/-- The score computed inside
`ConnectionMonitor._evaluate_connection_quality`: 100 minus the five
penalty terms, in source order. -/
def connectionScore (metrics : ConnectionMetrics) : ℚ :=
  let score : ℚ := 100
  let score :=
    if metrics.latency_ms > 2000 then score - 30
    else if metrics.latency_ms > 1000 then score - 20
    else if metrics.latency_ms > 500 then score - 10
    else if metrics.latency_ms > 200 then score - 5
    else score
  let score :=
    if metrics.uptime_percentage < 95
    then score - (95 - metrics.uptime_percentage) * 2 else score
  let score :=
    if metrics.error_rate_percentage > 5
    then score - metrics.error_rate_percentage * 3 else score
  let score :=
    if metrics.reconnection_count > 5
    then score - ((metrics.reconnection_count : ℚ) - 5) * 5 else score
  let score :=
    if metrics.last_disconnection_duration > 60
    then score - min 30 (metrics.last_disconnection_duration / 2) else score
  score

/-- `ConnectionMonitor._evaluate_connection_quality`: the score is mapped
to the five bands. -/
def evaluateConnectionQuality (metrics : ConnectionMetrics) : ConnectionQuality :=
  let score := connectionScore metrics
  if score ≥ 90 then .excellent
  else if score ≥ 70 then .good
  else if score ≥ 50 then .fair
  else if score ≥ 30 then .poor
  else .critical

/-- **C9** — The quality scoring function is pure and meets the reference
evaluations: perfect metrics (latency 0, uptime 100 %, error rate 0, no
reconnections, no recent disconnection) score 100 and map to EXCELLENT,
and the same metrics with uptime 80 % score exactly 70 and map to GOOD,
the ≥ 70 band boundary. -/
theorem connectionScore_reference_evaluations :
    connectionScore {} = 100 ∧
    evaluateConnectionQuality {} = ConnectionQuality.excellent ∧
    connectionScore { uptime_percentage := 80 } = 70 ∧
    evaluateConnectionQuality { uptime_percentage := 80 } = ConnectionQuality.good := by
  refine ⟨?_, ?_, ?_, ?_⟩ <;> norm_num [connectionScore, evaluateConnectionQuality]

/-- Monitor state relevant to the forced-reconnect decision. -/
structure MonitorState where
  current_quality : ConnectionQuality := .excellent
  consecutive_poor_checks : ℕ := 0
  reconnect_callback_set : Bool := true
  deriving Repr, DecidableEq

/-- `ConnectionMonitor._handle_quality_change`: records the new quality,
then — on CRITICAL — increments `consecutive_poor_checks` and fires the
forced-reconnect callback when the counter (after the increment) is ≥ 3
and a callback is set; on POOR/FAIR it only increments the counter; any
other quality resets the counter.  The returned flag is whether the
forced-reconnect callback was invoked. -/
def handleQualityChange (s : MonitorState) (new_quality : ConnectionQuality) :
    MonitorState × Bool :=
  let s1 := { s with current_quality := new_quality }
  if new_quality = .critical then
    let s2 := { s1 with consecutive_poor_checks := s1.consecutive_poor_checks + 1 }
    if s2.consecutive_poor_checks ≥ 3 ∧ s2.reconnect_callback_set then (s2, true)
    else (s2, false)
  else if new_quality = .poor ∨ new_quality = .fair then
    ({ s1 with consecutive_poor_checks := s1.consecutive_poor_checks + 1 }, false)
  else
    ({ s1 with consecutive_poor_checks := 0 }, false)

/-- One iteration of `ConnectionMonitor._monitoring_loop` restricted to the
quality decision: `_handle_quality_change` is reached only when the
evaluated quality differs from the current one. -/
def monitoringStep (s : MonitorState) (metrics : ConnectionMetrics) :
    MonitorState × Bool :=
  let quality := evaluateConnectionQuality metrics
  if quality ≠ s.current_quality then handleQualityChange s quality
  else (s, false)

/-- The monitoring loop over a list of metric samples; returns the final
state and the per-sample forced-reconnect flags. -/
def monitoringRun (s : MonitorState) :
    List ConnectionMetrics → MonitorState × List Bool
  | [] => (s, [])
  | m :: ms =>
      let step := monitoringStep s m
      let rest := monitoringRun step.1 ms
      (rest.1, step.2 :: rest.2)

/-- **C4 counterexample** — a run whose samples evaluate to POOR, FAIR,
CRITICAL (uptimes 65 %, 75 %, 55 %): each sample is a quality change, the
degraded-transition counter reaches 3 at the CRITICAL sample and the
forced-reconnect callback fires there, although only one sample of the
whole run (the firing one itself) evaluated CRITICAL — refuting the claim
that the callback never fires after only 1 or 2 consecutive CRITICAL
samples. -/
theorem forced_reconnect_fires_on_first_critical_sample :
    (monitoringRun {} [{ uptime_percentage := 65 }, { uptime_percentage := 75 },
        { uptime_percentage := 55 }]).2 = [false, false, true] ∧
    ([{ uptime_percentage := 65 }, { uptime_percentage := 75 },
        { uptime_percentage := 55 }].map evaluateConnectionQuality).count
      ConnectionQuality.critical = 1 := by
  have e1 : evaluateConnectionQuality { uptime_percentage := 65 }
      = ConnectionQuality.poor := by
    norm_num [evaluateConnectionQuality, connectionScore]
  have e2 : evaluateConnectionQuality { uptime_percentage := 75 }
      = ConnectionQuality.fair := by
    norm_num [evaluateConnectionQuality, connectionScore]
  have e3 : evaluateConnectionQuality { uptime_percentage := 55 }
      = ConnectionQuality.critical := by
    norm_num [evaluateConnectionQuality, connectionScore]
  constructor
  · simp only [monitoringRun, monitoringStep, e1, e2, e3]
    decide
  · simp only [List.map, e1, e2, e3]
    decide

/-- **C4 (amended)** — The forced-reconnect callback fires on a sample
exactly when the evaluated quality is CRITICAL *and differs from the
current quality* (the handler runs only on transitions) and the
degraded-transition counter `consecutive_poor_checks` — which counts
POOR/FAIR/CRITICAL transitions, not CRITICAL samples — reaches 3 with this
increment, with a callback registered.  In particular a sample whose
quality equals the current one never fires, so sustained CRITICAL never
re-invokes the callback, while a transition to CRITICAL preceded by two
degrading transitions fires it immediately. -/
theorem monitoringStep_fires_iff (s : MonitorState) (metrics : ConnectionMetrics) :
    (monitoringStep s metrics).2 = true ↔
      evaluateConnectionQuality metrics = ConnectionQuality.critical ∧
      evaluateConnectionQuality metrics ≠ s.current_quality ∧
      s.consecutive_poor_checks + 1 ≥ 3 ∧
      s.reconnect_callback_set = true := by
  obtain ⟨cq, cnt, cb⟩ := s
  simp only [monitoringStep, handleQualityChange]
  by_cases hne : evaluateConnectionQuality metrics = cq
  · simp [hne]
  · rw [if_pos hne]
    cases hq : evaluateConnectionQuality metrics <;> simp_all <;>
      split_ifs with hg <;> simp_all

/-- Witness for the amended C4 theorem at a concrete state (two degraded
transitions already counted) and a CRITICAL-scoring sample. -/
theorem monitoringStep_fires_iff_witness :
    (monitoringStep ⟨ConnectionQuality.fair, 2, true⟩
        { uptime_percentage := 55 }).2 = true ↔
      evaluateConnectionQuality { uptime_percentage := 55 }
          = ConnectionQuality.critical ∧
      evaluateConnectionQuality { uptime_percentage := 55 }
          ≠ (⟨ConnectionQuality.fair, 2, true⟩ : MonitorState).current_quality ∧
      (⟨ConnectionQuality.fair, 2, true⟩ : MonitorState).consecutive_poor_checks
          + 1 ≥ 3 ∧
      (⟨ConnectionQuality.fair, 2, true⟩ : MonitorState).reconnect_callback_set
          = true :=
  monitoringStep_fires_iff ⟨ConnectionQuality.fair, 2, true⟩
    { uptime_percentage := 55 }

/-! ## Reconnection system (src/connection/reconnection_system.py)

The embedding is time-free: the `asyncio.sleep(delay)` calls do not affect
which reconnect attempts are made, so delays are dropped.  The reconnect
callback is modelled as a function from the 1-based invocation index to its
boolean result. -/

/-- `ReconnectionContext`. -/
inductive ReconnectionContext where
  | emergency_ticks
  | priority_contracts
  | normal_idle
  deriving Repr, DecidableEq

/-- `ReconnectionSystem.determine_context`: EMERGENCY_TICKS if the
tick-operations predicate holds, else PRIORITY_CONTRACTS if the
active-contracts predicate holds, else NORMAL_IDLE. -/
def determineContext (hasTickOps hasContracts : Bool) : ReconnectionContext :=
  if hasTickOps then .emergency_ticks
  else if hasContracts then .priority_contracts
  else .normal_idle

/-- `ReconnectionStrategy._get_max_attempts_for_context`. -/
def maxAttemptsForContext : ReconnectionContext → ℕ
  | .emergency_ticks => 10
  | .priority_contracts => 7
  | .normal_idle => 5

/-- `ReconnectionSystem._initial_reconnection_attempts`: while
`attempt_count < max_attempts`, increment the counter and invoke the
callback; return on the first success.  `remaining` is
`max_attempts - attempt_count`; returns (success, final attempt count). -/
def initialReconnectionAttempts (cb : ℕ → Bool) : ℕ → ℕ → Bool × ℕ
  | 0, attempt_count => (false, attempt_count)
  | remaining + 1, attempt_count =>
      let ac := attempt_count + 1
      if cb ac then (true, ac)
      else initialReconnectionAttempts cb remaining ac

/-- `ReconnectionSystem._persistent_reconnection_loop`: unbounded
`while True` loop, re-evaluating the context every 3rd cycle; modelled
with explicit `fuel` — `none` means the loop is still running after
`fuel` cycles (the source has no other way out than success, which it
reports as the literal `True`, kept here as the `Bool` component).
`maxA` is the number of calls already made by the fast phase, so the
overall invocation index of cycle `cy` is `maxA + cy`. -/
def persistentReconnectionLoop (hasTickOps hasContracts : Bool) (cb : ℕ → Bool)
    (maxA : ℕ) : ℕ → ℕ → ReconnectionContext → Option (Bool × ℕ)
  | 0, _, _ => none
  | fuel + 1, persistent_cycle, context =>
      let cy := persistent_cycle + 1
      if cb (maxA + cy) then some (true, cy)
      else
        let context' :=
          if cy % 3 == 0 then determineContext hasTickOps hasContracts
          else context
        persistentReconnectionLoop hasTickOps hasContracts cb maxA fuel cy context'

/-- `ReconnectionSystem.start_persistent_reconnection` (entered with the
`is_reconnecting` guard already passed): fast phase first, persistent
phase only if the fast phase failed.  Returns
`some (success, attempt_count, persistent_cycle)`; `none` means the
persistent loop was still running after `fuel` cycles. -/
def startPersistentReconnection (hasTickOps hasContracts : Bool)
    (cb : ℕ → Bool) (fuel : ℕ) : Option (Bool × ℕ × ℕ) :=
  let context := determineContext hasTickOps hasContracts
  let maxA := maxAttemptsForContext context
  let fast := initialReconnectionAttempts cb maxA 0
  if fast.1 then some (true, fast.2, 0)
  else
    (persistentReconnectionLoop hasTickOps hasContracts cb maxA fuel 0
      context).map (fun r => (r.1, maxA, r.2))

/-- Fast phase with a callback succeeding exactly at overall call `M`:
if `M` lies within the remaining budget the phase stops at attempt `M`. -/
theorem initialReconnectionAttempts_hits (M : ℕ) :
    ∀ remaining attempt_count, attempt_count < M →
      M ≤ attempt_count + remaining →
      initialReconnectionAttempts (fun i => i == M) remaining attempt_count
        = (true, M) := by
  intro remaining
  induction remaining with
  | zero => intro ac h1 h2 ; omega
  | succ r ih =>
      intro ac h1 h2
      by_cases hM : ac + 1 = M
      · simp [initialReconnectionAttempts, hM]
      · have : ¬ ((ac + 1) == M) = true := by simp ; omega
        simp only [initialReconnectionAttempts, this, if_neg, Bool.false_eq_true,
          if_false]
        exact ih (ac + 1) (by omega) (by omega)

/-- Fast phase with a callback succeeding exactly at overall call `M`:
if `M` lies beyond the remaining budget, every attempt fails and the final
attempt count is the exhausted budget. -/
theorem initialReconnectionAttempts_exhausts (M : ℕ) :
    ∀ remaining attempt_count, attempt_count + remaining < M →
      initialReconnectionAttempts (fun i => i == M) remaining attempt_count
        = (false, attempt_count + remaining) := by
  intro remaining
  induction remaining with
  | zero => intro ac _ ; simp [initialReconnectionAttempts]
  | succ r ih =>
      intro ac h
      have : ¬ ((ac + 1) == M) = true := by simp ; omega
      simp only [initialReconnectionAttempts, this, Bool.false_eq_true, if_false]
      rw [ih (ac + 1) (by omega)]
      congr 1
      omega

/-- Persistent loop with a callback succeeding exactly at overall call `M`:
with enough fuel it stops at cycle `M - maxA`. -/
theorem persistentReconnectionLoop_hits (hasTickOps hasContracts : Bool)
    (M maxA : ℕ) :
    ∀ fuel persistent_cycle context, maxA + persistent_cycle < M →
      M ≤ maxA + persistent_cycle + fuel →
      persistentReconnectionLoop hasTickOps hasContracts (fun i => i == M) maxA
        fuel persistent_cycle context = some (true, M - maxA) := by
  intro fuel
  induction fuel with
  | zero => intro cy ctx h1 h2 ; omega
  | succ f ih =>
      intro cy ctx h1 h2
      by_cases hM : maxA + (cy + 1) = M
      · have hcb : ((maxA + (cy + 1)) == M) = true := by simp [hM]
        simp only [persistentReconnectionLoop, hcb, if_true, Option.some.injEq,
          Prod.mk.injEq, true_and]
        omega
      · have hcb : ¬ ((maxA + (cy + 1)) == M) = true := by simp ; omega
        simp only [persistentReconnectionLoop, hcb, Bool.false_eq_true, if_false]
        exact ih (cy + 1) _ (by omega) (by omega)

/-- The persistent loop can only report success (`True`). -/
theorem persistentReconnectionLoop_only_true (hasTickOps hasContracts : Bool)
    (cb : ℕ → Bool) (maxA : ℕ) :
    ∀ fuel persistent_cycle context r,
      persistentReconnectionLoop hasTickOps hasContracts cb maxA
        fuel persistent_cycle context = some r → r.1 = true := by
  intro fuel
  induction fuel with
  | zero => intro cy ctx r h ; simp [persistentReconnectionLoop] at h
  | succ f ih =>
      intro cy ctx r h
      simp only [persistentReconnectionLoop] at h
      by_cases hcb : cb (maxA + (cy + 1)) = true
      · simp [hcb] at h
        rw [← h]
      · simp only [hcb, Bool.false_eq_true, if_false, if_neg] at h
        exact ih (cy + 1) _ r h

/-- **C5** — With a reconnect callback that fails on its first `M − 1`
invocations and succeeds on the `M`-th, `start_persistent_reconnection`
succeeds after exactly `M` callback invocations (`attempt_count`
`min M maxA` from the fast phase plus `persistent_cycle`
`M − min M maxA` from the persistent phase, which is entered only when the
fast budget `maxA` of the chosen context is exhausted, i.e. the persistent
cycle count is zero whenever `M ≤ maxA`); moreover the controller has no
failure exit of its own: for every callback and fuel it never returns a
failed result. -/
theorem startPersistentReconnection_M_calls (M : ℕ) (hM : 1 ≤ M)
    (hasTickOps hasContracts : Bool) :
    (startPersistentReconnection hasTickOps hasContracts (fun i => i == M) M
      = some (true,
          min M (maxAttemptsForContext (determineContext hasTickOps hasContracts)),
          M - min M (maxAttemptsForContext (determineContext hasTickOps hasContracts)))) ∧
    min M (maxAttemptsForContext (determineContext hasTickOps hasContracts)) +
      (M - min M (maxAttemptsForContext (determineContext hasTickOps hasContracts))) = M ∧
    (∀ (cb : ℕ → Bool) (fuel : ℕ) (p : ℕ × ℕ),
      startPersistentReconnection hasTickOps hasContracts cb fuel
        ≠ some (false, p)) := by
  set maxA := maxAttemptsForContext (determineContext hasTickOps hasContracts) with hmaxA
  have hmaxApos : 1 ≤ maxA := by
    rw [hmaxA]
    cases determineContext hasTickOps hasContracts <;> simp [maxAttemptsForContext]
  refine ⟨?_, by omega, ?_⟩
  · by_cases hle : M ≤ maxA
    · have hfast := initialReconnectionAttempts_hits M maxA 0 (by omega) (by omega)
      have hmin : min M maxA = M := by omega
      simp [startPersistentReconnection, ← hmaxA, hfast, hmin]
    · have hfast := initialReconnectionAttempts_exhausts M maxA 0 (by omega)
      have hloop := persistentReconnectionLoop_hits hasTickOps hasContracts M maxA
        M 0 (determineContext hasTickOps hasContracts) (by omega) (by omega)
      have hmin : min M maxA = maxA := by omega
      simp only [startPersistentReconnection, ← hmaxA, hfast, Bool.false_eq_true,
        if_false, hloop, Option.map_some]
      simp [hmin]
  · intro cb fuel p
    simp only [startPersistentReconnection]
    rw [← hmaxA]
    by_cases hfast : (initialReconnectionAttempts cb maxA 0).1 = true
    · simp [hfast]
    · simp only [hfast, Bool.false_eq_true, if_false, ne_eq]
      intro h
      cases hpl : persistentReconnectionLoop hasTickOps hasContracts cb maxA fuel 0
          (determineContext hasTickOps hasContracts) with
      | none =>
          rw [hpl] at h
          simp at h
      | some r =>
          have hr := persistentReconnectionLoop_only_true hasTickOps hasContracts
            cb maxA fuel 0 _ r hpl
          rw [hpl] at h
          simp [hr] at h

/-- Witness for C5 at `M = 8` in the PRIORITY context (fast budget 7, so
the 8th call happens in the persistent phase). -/
theorem startPersistentReconnection_M_calls_witness :
    (startPersistentReconnection false true (fun i => i == 8) 8
      = some (true,
          min 8 (maxAttemptsForContext (determineContext false true)),
          8 - min 8 (maxAttemptsForContext (determineContext false true)))) ∧
    min 8 (maxAttemptsForContext (determineContext false true)) +
      (8 - min 8 (maxAttemptsForContext (determineContext false true))) = 8 ∧
    (∀ (cb : ℕ → Bool) (fuel : ℕ) (p : ℕ × ℕ),
      startPersistentReconnection false true cb fuel ≠ some (false, p)) :=
  startPersistentReconnection_M_calls 8 (by decide) false true

/-! ## WebSocket manager (src/connection/websocket_manager.py) -/

/-- The state of an `asyncio.Future` held in `pending_requests`. -/
inductive FutureState where
  | pending
  | done
  | cancelled
  deriving Repr, DecidableEq

/-- Transport state relevant to the disconnect paths. -/
structure WSState where
  is_connected : Bool := false
  is_authorized : Bool := false
  pending_requests : List (ℕ × FutureState) := []
  deriving Repr, DecidableEq

/-- The future-cancellation loop of `WebSocketManager.disconnect`:
`for future in self.pending_requests.values(): if not future.done():
future.cancel()`. -/
def cancelPendingFutures (pending : List (ℕ × FutureState)) :
    List (ℕ × FutureState) :=
  pending.map (fun idf => if idf.2 = FutureState.done then idf
                          else (idf.1, FutureState.cancelled))

/-- `WebSocketManager.disconnect` (explicit close): marks disconnected,
cancels every non-done pending future and clears the table.  The second
component is the final state of the futures that were in the table (they
live on in the coroutines awaiting them). -/
def disconnect (s : WSState) : WSState × List (ℕ × FutureState) :=
  ({ s with is_connected := false, is_authorized := false,
            pending_requests := [] },
   cancelPendingFutures s.pending_requests)

/-- The `finally` block of `WebSocketManager._message_loop`, reached on a
graceful or abrupt remote close (or any loop exit): if still marked
connected, it clears the connected/authorized flags and fires the
disconnection callback (returned flag).  It does not touch
`pending_requests`. -/
def messageLoopExit (s : WSState) : WSState × Bool :=
  if s.is_connected then
    ({ s with is_connected := false, is_authorized := false }, true)
  else (s, false)

/-- The `finally` block of `WebSocketManager.send_request`:
`self.pending_requests.pop(req_id, None)` runs on every outcome
(response, timeout, connection closed, other exception). -/
def sendRequestCleanup (pending : List (ℕ × FutureState)) (req_id : ℕ) :
    List (ℕ × FutureState) :=
  pending.filter (fun e => e.1 ≠ req_id)

/-- **C3 counterexample** — a transport with one pending request that
suffers an abrupt (or graceful remote) close: the read pump's exit handler
fires the disconnection notification but leaves the slot in the pending
table still pending, so the disconnect handling itself does not resolve
the K pending slots on that path — only the explicit `disconnect()` call
does. -/
theorem messageLoopExit_leaves_pending :
    (messageLoopExit ⟨true, true, [(1, FutureState.pending)]⟩).2 = true ∧
    (messageLoopExit ⟨true, true, [(1, FutureState.pending)]⟩).1.pending_requests
      = [(1, FutureState.pending)] := by
  constructor <;> rfl

/-- **C3 (amended)** — Pending-slot resolution on disconnect is performed
only by the explicit close: for every state, `disconnect()` empties the
pending table and leaves each of the K previously registered futures
non-pending (cancelled unless already done), whereas the read pump's exit
path on a remote graceful/abrupt close only clears the connection flags
and fires the notification, leaving the pending table unchanged; such
leftover requests are resolved by their own request path, whose `finally`
removes the slot on every outcome, so no entry outlives its request. -/
theorem disconnect_resolves_all_pending (s : WSState) :
    (disconnect s).1.pending_requests = [] ∧
    (disconnect s).2.length = s.pending_requests.length ∧
    (∀ e ∈ (disconnect s).2, e.2 ≠ FutureState.pending) ∧
    (messageLoopExit s).1.pending_requests = s.pending_requests ∧
    (∀ req_id : ℕ, ∀ e ∈ sendRequestCleanup s.pending_requests req_id,
      e.1 ≠ req_id) := by
  refine ⟨rfl, ?_, ?_, ?_, ?_⟩
  · simp [disconnect, cancelPendingFutures]
  · intro e he
    simp only [disconnect, cancelPendingFutures, List.mem_map] at he
    obtain ⟨a, _, ha⟩ := he
    by_cases hd : a.2 = FutureState.done
    · simp [hd] at ha
      rw [← ha, hd]
      simp
    · simp [hd] at ha
      rw [← ha]
      simp
  · unfold messageLoopExit
    split <;> rfl
  · intro req_id e he
    simp only [sendRequestCleanup, List.mem_filter, decide_not] at he
    simpa using he.2

/-- Witness for the amended C3 theorem at a one-entry pending table. -/
theorem disconnect_resolves_all_pending_witness :
    (disconnect ⟨true, true, [(1, FutureState.pending)]⟩).1.pending_requests = [] ∧
    (disconnect ⟨true, true, [(1, FutureState.pending)]⟩).2.length
      = [(1, FutureState.pending)].length ∧
    (∀ e ∈ (disconnect ⟨true, true, [(1, FutureState.pending)]⟩).2,
      e.2 ≠ FutureState.pending) ∧
    (messageLoopExit ⟨true, true, [(1, FutureState.pending)]⟩).1.pending_requests
      = [(1, FutureState.pending)] ∧
    (∀ req_id : ℕ, ∀ e ∈ sendRequestCleanup [(1, FutureState.pending)] req_id,
      e.1 ≠ req_id) :=
  disconnect_resolves_all_pending ⟨true, true, [(1, FutureState.pending)]⟩

/-- One call of `WebSocketManager.send_request`, seen from the correlation
id assignment: `req_id = int(time.time() * 1000000) + len(self.pending_requests)`.
`time` is the µs clock reading at the call; `removedBefore` is the number
of pending entries that resolved (response or timeout `finally`-pop) since
the previous send. -/
structure SendEvent where
  time : ℕ
  removedBefore : ℕ
  deriving Repr, DecidableEq

/-- Run a sequence of sends starting from pending-table size `p`,
returning the assigned `req_id`s: each call computes its id from the clock
and the current table size, then registers its own future (size + 1). -/
def runSends : ℕ → List SendEvent → List ℕ
  | _, [] => []
  | p, e :: es =>
      let p' := p - e.removedBefore
      (e.time + p') :: runSends (p' + 1) es

/-- Environment validity: no step removes more entries than the table
holds. -/
def boundedRemovals : ℕ → List SendEvent → Bool
  | _, [] => true
  | p, e :: es =>
      decide (e.removedBefore ≤ p) && boundedRemovals (p - e.removedBefore + 1) es

/-- Environment validity: the clock readings are nondecreasing. -/
def timesNondecreasing : List SendEvent → Bool
  | [] => true
  | [_] => true
  | e1 :: e2 :: es =>
      decide (e1.time ≤ e2.time) && timesNondecreasing (e2 :: es)

/-- Between consecutive sends the µs clock advances by at least the number
of pending entries removed in between. -/
def clockOutpacesRemovals : List SendEvent → Bool
  | [] => true
  | [_] => true
  | e1 :: e2 :: es =>
      decide (e1.time + e2.removedBefore ≤ e2.time) &&
        clockOutpacesRemovals (e2 :: es)

/-- **C6 counterexample** — two sends at the same µs clock reading with the
first request resolved in between (a valid behaviour of the transport):
both calls are assigned the correlation id 1000000, so the assigned ids
are neither strictly increasing nor unique. -/
theorem send_request_ids_can_repeat :
    boundedRemovals 0 [⟨1000000, 0⟩, ⟨1000000, 1⟩] = true ∧
    timesNondecreasing [⟨1000000, 0⟩, ⟨1000000, 1⟩] = true ∧
    runSends 0 [⟨1000000, 0⟩, ⟨1000000, 1⟩] = [1000000, 1000000] ∧
    ¬ List.Chain' (· < ·) (runSends 0 [⟨1000000, 0⟩, ⟨1000000, 1⟩]) := by
  refine ⟨rfl, rfl, rfl, ?_⟩
  simp [runSends, List.chain'_cons]

/-- **C6 (amended)** — The correlation id assigned by `send_request` is the
µs clock reading plus the current pending-table size; across a sequence of
calls the ids are strictly increasing provided that between consecutive
calls the clock advances by at least the number of pending entries removed
in between (in particular whenever no pending request resolves between two
calls at a nondecreasing clock).  Without that proviso ids can repeat. -/
theorem runSends_strictMono (evs : List SendEvent) :
    ∀ p : ℕ, boundedRemovals p evs = true → clockOutpacesRemovals evs = true →
      List.Chain' (· < ·) (runSends p evs) := by
  induction evs with
  | nil => intro p _ _ ; simp [runSends]
  | cons e1 rest ih =>
      intro p hb hc
      cases rest with
      | nil => simp [runSends]
      | cons e2 es =>
          rw [boundedRemovals, Bool.and_eq_true, decide_eq_true_eq] at hb
          obtain ⟨hr1, hbtail⟩ := hb
          have hbtail' := hbtail
          rw [boundedRemovals, Bool.and_eq_true, decide_eq_true_eq] at hbtail'
          obtain ⟨hr2, -⟩ := hbtail'
          rw [clockOutpacesRemovals, Bool.and_eq_true, decide_eq_true_eq] at hc
          obtain ⟨hclk, hctail⟩ := hc
          have htail := ih (p - e1.removedBefore + 1) hbtail hctail
          simp only [runSends] at htail ⊢
          exact List.Chain'.cons (by omega) htail

/-- Witness for the amended C6 theorem: two sends at clock readings 0 and
5 µs with one removal in between yield the strictly increasing ids
[0, 5]. -/
theorem runSends_strictMono_witness :
    List.Chain' (· < ·) (runSends 0 [⟨0, 0⟩, ⟨5, 1⟩]) :=
  runSends_strictMono [⟨0, 0⟩, ⟨5, 1⟩] 0 (by decide) (by decide)

/-! ## Data model (src/core/data_models.py) -/

/-- `ContractStatus` (`open` is a Lean keyword, hence `open_`). -/
inductive ContractStatus where
  | open_
  | won
  | lost
  | sold
  | finished
  deriving Repr, DecidableEq

/-- `ContractInfo`, restricted to the fields read or written by the
embedded functions (`start_time`, `buy_price`, `entry_price`,
`exit_price`, `martingale_level` are unused by them). -/
structure ContractInfo where
  id : String
  symbol : String := ""
  type : String := ""
  amount : ℚ := 0
  status : ContractStatus := .open_
  end_time : Option ℚ := none
  profit : ℚ := 0
  payout : ℚ := 0
  sell_price : ℚ := 0
  forced_result : Bool := false
  deriving Repr, DecidableEq

/-- `ContractInfo.is_finished`: status in {WON, LOST, SOLD, FINISHED}. -/
def ContractInfo.is_finished (c : ContractInfo) : Bool :=
  c.status == .won || c.status == .lost || c.status == .sold ||
    c.status == .finished

/-! ## Contract recovery (src/connection/contract_recovery.py)

`_recover_single_contract` performs up to `max_recovery_attempts = 3`
venue queries; the environment is modelled as the list of per-attempt
responses, `none` standing for a missing/invalid response (and for an
attempt that raised, which the source handles identically by retrying). -/

/-- The `proposal_open_contract` payload fields read by recovery. -/
structure ContractData where
  status : Option String := none
  buy_price : Option ℚ := none
  payout : Option ℚ := none
  deriving Repr, DecidableEq

/-- `ContractRecovery._calculate_contract_profit`: `payout − buy_price`
when won, else `−buy_price`, with `buy_price` defaulting to the contract's
amount and `payout` to 0. -/
def calculateContractProfit (contract : ContractInfo)
    (contract_data : ContractData) : ℚ :=
  let buy_price := contract_data.buy_price.getD contract.amount
  if contract_data.status = some "won" then
    (contract_data.payout.getD 0) - buy_price
  else -buy_price

/-- Result dictionary of `_recover_single_contract`. -/
structure SingleRecoveryResult where
  success : Bool
  profit : ℚ
  still_active : Bool := false
  deriving Repr, DecidableEq

/-- `ContractRecovery._recover_single_contract`: one attempt per response;
a finished status (sold/won/lost) updates the contract and succeeds, an
"open" status succeeds with zero profit leaving the contract pending, any
other outcome retries; an exhausted attempt list is a failure (the caller
will force the loss). -/
def recoverSingleContract (now : ℚ) (contract : ContractInfo) :
    List (Option ContractData) → SingleRecoveryResult × ContractInfo
  | [] => ({ success := false, profit := 0 }, contract)
  | response :: rest =>
      match response with
      | some contract_data =>
          match contract_data.status with
          | some s =>
              if s = "sold" ∨ s = "won" ∨ s = "lost" then
                let profit := calculateContractProfit contract contract_data
                let contract' := { contract with
                                   status := if profit > 0 then ContractStatus.won
                                             else ContractStatus.lost,
                                   profit := profit,
                                   end_time := some now }
                ({ success := true, profit := profit }, contract')
              else if s = "open" then
                ({ success := true, profit := 0, still_active := true }, contract)
              else recoverSingleContract now contract rest
          | none => recoverSingleContract now contract rest
      | none => recoverSingleContract now contract rest

/-- A response from which recovery can extract no contract outcome. -/
def responseUnusable : Option ContractData → Bool
  | none => true
  | some d =>
      match d.status with
      | none => true
      | some s => !(s == "sold" || s == "won" || s == "lost" || s == "open")

/-- `ContractRecovery.recover_lost_contracts` over the monitored
contracts: per contract run `_recover_single_contract` with the responses
the venue gives for its id; on success count it recovered and add its
profit, on failure count it failed and force the contract to a loss
(status FINISHED, profit = −amount).  Returns
(recovered, failed, total_profit, updated contracts). -/
def recoverLostContracts (now : ℚ)
    (oracle : String → List (Option ContractData)) :
    List ContractInfo → ℕ × ℕ × ℚ × List ContractInfo
  | [] => (0, 0, 0, [])
  | contract :: rest =>
      let single := recoverSingleContract now contract (oracle contract.id)
      let res := single.1
      let c1 := single.2
      let tail := recoverLostContracts now oracle rest
      if res.success then
        (tail.1 + 1, tail.2.1, tail.2.2.1 + res.profit, c1 :: tail.2.2.2)
      else
        (tail.1, tail.2.1 + 1, tail.2.2.1 - contract.amount,
         { c1 with status := ContractStatus.finished,
                   profit := -contract.amount } :: tail.2.2.2)

/-- **C2 counterexample** — a monitored contract (amount 1) whose three
recovery attempts all get no usable response: recovery forces status
FINISHED and profit −1, but leaves `forced_result` at `false` — the
forced-result flag is *not* set to true by the recovery procedure
(only the orchestrator's timeout-forcing path `_force_contract_as_loss`
sets it), refuting the claim. -/
theorem recovery_force_leaves_forced_result_false :
    ((recoverLostContracts 0 (fun _ => [none, none, none])
        [{ id := "123", amount := 1 }]).2.2.2.map
      (fun c => (c.status, c.profit, c.forced_result)))
      = [(ContractStatus.finished, -1, false)] ∧
    responseUnusable none = true := by
  constructor <;> rfl

/-- **C2 (amended)** — For every snapshotted position for which the
recovery procedure obtains no usable venue response after its N = 3
bounded attempts, recovery forces the position's status to FINISHED and
its profit to minus its amount, but leaves the forced-result flag
unchanged (the recovery path never sets it; only the orchestrator's
timeout-forcing path does). -/
theorem recovery_forces_loss_on_unusable_responses (now : ℚ)
    (oracle : String → List (Option ContractData))
    (contract : ContractInfo) (rest : List ContractInfo)
    (hlen : (oracle contract.id).length = 3)
    (hbad : ∀ r ∈ oracle contract.id, responseUnusable r = true) :
    ∃ c', (recoverLostContracts now oracle (contract :: rest)).2.2.2
        = c' :: (recoverLostContracts now oracle rest).2.2.2 ∧
      c'.status = ContractStatus.finished ∧
      c'.profit = -contract.amount ∧
      c'.forced_result = contract.forced_result := by
  have hsingle : ∀ (rs : List (Option ContractData)),
      (∀ r ∈ rs, responseUnusable r = true) →
      recoverSingleContract now contract rs
        = ({ success := false, profit := 0 }, contract) := by
    intro rs
    induction rs with
    | nil => intro _ ; rfl
    | cons r rs ih =>
        intro hall
        have hr := hall r (List.mem_cons_self r rs)
        have hrest : ∀ x ∈ rs, responseUnusable x = true :=
          fun x hx => hall x (List.mem_cons_of_mem r hx)
        cases r with
        | none => simpa [recoverSingleContract] using ih hrest
        | some d =>
            cases hds : d.status with
            | none => simp [recoverSingleContract, hds, ih hrest]
            | some s =>
                simp only [responseUnusable, hds, Bool.not_eq_eq_eq_not,
                  Bool.not_true, Bool.or_eq_false_iff, beq_eq_false_iff_ne,
                  ne_eq] at hr
                simp [recoverSingleContract, hds, hr.1.1.1, hr.1.1.2,
                  hr.1.2, hr.2, ih hrest]
  have h1 := hsingle (oracle contract.id) hbad
  refine ⟨{ contract with status := ContractStatus.finished, profit := -contract.amount },
    ?_, rfl, rfl, rfl⟩
  simp [recoverLostContracts, h1]

/-- Witness for the amended C2 theorem at a concrete contract and three
unusable responses. -/
theorem recovery_forces_loss_on_unusable_responses_witness :
    ∃ c', (recoverLostContracts 0 (fun _ => [none, none, none])
        [{ id := "123", amount := 1 }]).2.2.2
        = c' :: (recoverLostContracts 0 (fun _ => [none, none, none]) []).2.2.2 ∧
      c'.status = ContractStatus.finished ∧
      c'.profit = -(({ id := "123", amount := 1 } : ContractInfo)).amount ∧
      c'.forced_result = (({ id := "123", amount := 1 } : ContractInfo)).forced_result :=
  recovery_forces_loss_on_unusable_responses 0 (fun _ => [none, none, none])
    { id := "123", amount := 1 } [] rfl (by decide)

/-- **C10** — For every snapshot and every venue behaviour the recovery
report is consistent: each snapshotted position increments exactly one of
the recovered or failed counts, so recovered + failed equals the number of
snapshotted positions; and a position the venue reports as still open is
counted as recovered with a profit contribution of zero. -/
theorem recovery_report_consistent :
    (∀ (now : ℚ) (oracle : String → List (Option ContractData))
        (contracts : List ContractInfo),
      (recoverLostContracts now oracle contracts).1 +
        (recoverLostContracts now oracle contracts).2.1 = contracts.length) ∧
    (∀ (now : ℚ) (contract : ContractInfo)
        (responses : List (Option ContractData)),
      (recoverSingleContract now contract responses).1.still_active = true →
        (recoverSingleContract now contract responses).1.success = true ∧
        (recoverSingleContract now contract responses).1.profit = 0) := by
  constructor
  · intro now oracle contracts
    induction contracts with
    | nil => rfl
    | cons c rest ih =>
        simp only [recoverLostContracts]
        by_cases hs : (recoverSingleContract now c (oracle c.id)).1.success = true
        · simp only [hs, if_true, List.length_cons]
          omega
        · simp only [hs, Bool.false_eq_true, if_false, List.length_cons]
          omega
  · intro now contract responses
    induction responses with
    | nil => intro h ; simp [recoverSingleContract] at h
    | cons r rest ih =>
        intro h
        cases r with
        | none =>
            simp only [recoverSingleContract] at h ⊢
            exact ih h
        | some d =>
            cases hds : d.status with
            | none =>
                simp only [recoverSingleContract, hds] at h ⊢
                exact ih h
            | some s =>
                by_cases hfin : s = "sold" ∨ s = "won" ∨ s = "lost"
                · simp [recoverSingleContract, hds, hfin] at h
                · by_cases hopen : s = "open"
                  · simp [recoverSingleContract, hds, hfin, hopen]
                  · simp only [recoverSingleContract, hds, hfin, hopen,
                      if_false] at h ⊢
                    exact ih h

/-- Witness for C10: one contract, venue reports it still open on the
first attempt — recovered count 1, failed 0, zero profit contribution. -/
theorem recovery_report_consistent_witness :
    ((recoverLostContracts 0 (fun _ => [some { status := some "open" }])
        [{ id := "42", amount := 1 }]).1 +
      (recoverLostContracts 0 (fun _ => [some { status := some "open" }])
        [{ id := "42", amount := 1 }]).2.1 = 1) ∧
    ((recoverSingleContract 0 { id := "42", amount := 1 }
        [some { status := some "open" }]).1.success = true ∧
      (recoverSingleContract 0 { id := "42", amount := 1 }
        [some { status := some "open" }]).1.profit = 0) :=
  ⟨recovery_report_consistent.1 0 (fun _ => [some { status := some "open" }])
      [{ id := "42", amount := 1 }],
   recovery_report_consistent.2 0 { id := "42", amount := 1 }
      [some { status := some "open" }] rfl⟩

/-! ## Bot reconciliation (src/core/bot.py)

`_process_contract_recovery_update` mutates the first contract with the
matching id inside the first asset state that holds it, then — when all of
that asset's contracts are finished and the updated contract had a forced
result — runs `_correct_results_after_recovery` on that asset.  Python's
in-place mutation of the found objects is modelled by value: the search
returns the index and the asset, and the caller writes the updated asset
back with `List.set`. -/

/-- The fields of `AssetState` read or written by the reconciliation
path.  `forced_total_loss` is a dataclass field with class-level default
`None`, so `hasattr` on it is always true; `none` here stands for the
Python value `None` (or the instance attribute having been deleted —
indistinguishable to the reconciliation code except for which exception a
repeated correction raises). -/
structure AssetState where
  symbol : String := ""
  current_sequence : ℕ := 1
  active_contracts : List ContractInfo := []
  loss_accumulator : ℚ := 0
  forced_total_loss : Option ℚ := none
  deriving Repr, DecidableEq

/-- The configuration switch the reconciliation reads
(`settings.DUAL_ENTRY`). -/
structure BotConfig where
  dual_entry : Bool
  deriving Repr, DecidableEq

/-- Bot state touched by reconciliation: the balance, the session-stats
mirror of it, and the per-symbol asset states. -/
structure BotState where
  balance : ℚ := 0
  session_current_balance : ℚ := 0
  asset_states : List AssetState := []
  deriving Repr, DecidableEq

/-- `TradingBot._all_contracts_finished`. -/
def allContractsFinished (asset_state : AssetState) : Bool :=
  asset_state.active_contracts.all (fun c => c.is_finished)

/-- `sum(c.profit for c in asset_state.active_contracts)`. -/
def sumProfits (cs : List ContractInfo) : ℚ :=
  (cs.map (fun c => c.profit)).sum

/-- `operation_won = any(c.profit > 0 …) if DUAL_ENTRY else real_total > 0`. -/
def operationWon (cfg : BotConfig) (asset_state : AssetState) : Bool :=
  if cfg.dual_entry then
    asset_state.active_contracts.any (fun c => decide (c.profit > 0))
  else decide (sumProfits asset_state.active_contracts > 0)

/-- The in-place field update applied to the found contract: real status,
profit, end time, payout, sell price, and `forced_result = False`. -/
def updateContractFields (original contract : ContractInfo) : ContractInfo :=
  { original with status := contract.status, profit := contract.profit,
                  end_time := contract.end_time, payout := contract.payout,
                  sell_price := contract.sell_price, forced_result := false }

/-- Replace the first contract with the given id (the object the source's
inner `for`-loop breaks on). -/
def setFirstContract (cid : String) (f : ContractInfo → ContractInfo) :
    List ContractInfo → List ContractInfo
  | [] => []
  | c :: rest =>
      if c.id == cid then f c :: rest
      else c :: setFirstContract cid f rest

/-- Does the asset hold a contract with this id? -/
def assetHasContract (asset_state : AssetState) (cid : String) : Bool :=
  asset_state.active_contracts.any (fun c => c.id == cid)

/-- The double `for`-loop with `break` of
`_process_contract_recovery_update`: the first asset state containing a
contract with the id, together with its index. -/
def findAssetWithContract (cid : String) :
    List AssetState → Option (ℕ × AssetState)
  | [] => none
  | a :: rest =>
      if assetHasContract a cid then some (0, a)
      else (findAssetWithContract cid rest).map (fun p => (p.1 + 1, p.2))

/-- `next(c for c in active_contracts if c.id == cid)` — the first
matching contract. -/
def findContract (cs : List ContractInfo) (cid : String) : Option ContractInfo :=
  cs.find? (fun c => c.id == cid)

/-- The asset after `_process_contract_recovery_update` wrote the real
result into the found contract. -/
def recoveryUpdatedAsset (asset_state : AssetState) (contract : ContractInfo) :
    AssetState :=
  { asset_state with
    active_contracts := setFirstContract contract.id
      (fun original => updateContractFields original contract)
      asset_state.active_contracts }

/-- `TradingBot._correct_results_after_recovery` on one asset state:
`hasattr(asset_state, 'forced_total_loss')` is always true (dataclass
field), so the guard never returns early; when the stored value is the
class default `None` the body raises (`real_total - None` is a
`TypeError`, and after a previous correction the repeated `delattr` an
`AttributeError`), modelled as `Except.error`.  Otherwise: clear the
attribute, apply `real_total − forced_total` to the balance, and reset the
martingale sequence when the operation actually won and the sequence is
above base level. -/
def correctResultsAfterRecovery (cfg : BotConfig) (balance : ℚ)
    (asset_state : AssetState) : Except String (ℚ × AssetState) :=
  match asset_state.forced_total_loss with
  | none => Except.error "TypeError"
  | some forced_total =>
      let real_total := sumProfits asset_state.active_contracts
      let balance_correction := real_total - forced_total
      let a1 := { asset_state with forced_total_loss := none }
      let a2 :=
        if operationWon cfg a1 ∧ 1 < a1.current_sequence then
          { a1 with current_sequence := 1, loss_accumulator := 0 }
        else a1
      Except.ok (balance + balance_correction, a2)

/-- `TradingBot._process_contract_recovery_update`: locate the asset and
contract by id (silently return when absent), remember whether the result
had been forced, write the real result in, and — when all contracts of the
asset are now finished and the result had been forced — run the balance
correction, which also updates `session_stats.current_balance`. -/
def processContractRecoveryUpdate (cfg : BotConfig) (bot : BotState)
    (contract : ContractInfo) : Except String BotState :=
  match findAssetWithContract contract.id bot.asset_states with
  | none => Except.ok bot
  | some (j, asset_state) =>
      match findContract asset_state.active_contracts contract.id with
      | none => Except.ok bot
      | some original_contract =>
          let was_forced_loss := original_contract.forced_result
          let asset' := recoveryUpdatedAsset asset_state contract
          if allContractsFinished asset' ∧ was_forced_loss then
            match correctResultsAfterRecovery cfg bot.balance asset' with
            | Except.error e => Except.error e
            | Except.ok (balance', a2) =>
                Except.ok { balance := balance',
                            session_current_balance := balance',
                            asset_states := bot.asset_states.set j a2 }
          else
            Except.ok { bot with asset_states := bot.asset_states.set j asset' }

/-- `setFirstContract` applied to the first match of `findContract`
rewrites exactly that contract. -/
theorem findContract_setFirst (cid : String) (f : ContractInfo → ContractInfo)
    (hf : ∀ c, (f c).id = c.id) :
    ∀ (cs : List ContractInfo) (orig : ContractInfo),
      findContract cs cid = some orig →
      findContract (setFirstContract cid f cs) cid = some (f orig) := by
  intro cs
  induction cs with
  | nil => intro orig h ; simp [findContract] at h
  | cons c rest ih =>
      intro orig h
      by_cases hc : (c.id == cid) = true
      · have hco : c = orig := by
          simpa [findContract, List.find?_cons, hc] using h
        subst hco
        simp [setFirstContract, hc, findContract, List.find?_cons, hf]
      · have hcf : (c.id == cid) = false := by simpa using hc
        simp only [findContract, List.find?_cons, hcf] at h
        simp only [setFirstContract, hcf, Bool.false_eq_true, if_false,
          findContract, List.find?_cons]
        exact ih orig h

/-- Writing back an asset that still holds the id at the index where the
search found one re-finds exactly that asset. -/
theorem findAssetWithContract_set (cid : String) (a2 : AssetState)
    (ha : assetHasContract a2 cid = true) :
    ∀ (l : List AssetState) (j : ℕ) (asset_state : AssetState),
      findAssetWithContract cid l = some (j, asset_state) →
      findAssetWithContract cid (l.set j a2) = some (j, a2) := by
  intro l
  induction l with
  | nil => intro j a h ; simp [findAssetWithContract] at h
  | cons x rest ih =>
      intro j a h
      by_cases hx : assetHasContract x cid = true
      · rw [findAssetWithContract, if_pos hx] at h
        obtain ⟨rfl, rfl⟩ : 0 = j ∧ x = a := by simpa [eq_comm] using h
        rw [List.set_cons_zero, findAssetWithContract, if_pos ha]
      · rw [findAssetWithContract, if_neg hx] at h
        rw [Option.map_eq_some'] at h
        obtain ⟨p, hp, hpe⟩ := h
        injection hpe with h1 h2
        subst h1
        subst h2
        rw [List.set_cons_succ, findAssetWithContract, if_neg hx,
          ih p.1 p.2 (by exact hp)]
        rfl

/-- A correction pass on an asset whose forced total has already been
cleared raises instead of touching the balance. -/
theorem correctResultsAfterRecovery_cleared (cfg : BotConfig) (b : ℚ)
    (s : AssetState) (h : s.forced_total_loss = none) :
    correctResultsAfterRecovery cfg b s = Except.error "TypeError" := by
  unfold correctResultsAfterRecovery
  rw [h]

/-- What one successful correction pass does: balance moves by
`real_total − forced_total`, the forced total is cleared, the contracts
are untouched, and a won operation ends at sequence 1 (reset when above
base, already there otherwise). -/
theorem correctResultsAfterRecovery_spec (cfg : BotConfig) (b : ℚ)
    (s : AssetState) (ft : ℚ) (hfl : s.forced_total_loss = some ft)
    (hseq : 1 ≤ s.current_sequence) :
    ∃ a2 : AssetState,
      correctResultsAfterRecovery cfg b s
        = Except.ok (b + (sumProfits s.active_contracts - ft), a2) ∧
      a2.forced_total_loss = none ∧
      a2.active_contracts = s.active_contracts ∧
      (operationWon cfg a2 = true → a2.current_sequence = 1) := by
  unfold correctResultsAfterRecovery
  rw [hfl]
  refine ⟨_, rfl, ?_, ?_, ?_⟩
  · split_ifs <;> rfl
  · split_ifs <;> rfl
  · split_ifs with hw
    · intro _ ; rfl
    · intro hwon
      rw [not_and_or] at hw
      rcases hw with hw | hw
      · exact absurd hwon hw
      · have hw' : ¬ 1 < s.current_sequence := hw
        show s.current_sequence = 1
        omega

/-- **C1** — When a confirmed real result arrives for a previously forced
position and every position of that operation is then finished, the
reconciliation applies `real_total_profit − forced_total_profit` to the
balance (mirrored into the session stats) exactly once — afterwards the
forced total is cleared, so a repeated correction pass raises instead of
moving the balance, and re-delivering the same update leaves the balance
unchanged because the position's forced-result flag was cleared — and if
the real results make the operation a net win the sequence counter ends at
its base level 1. -/
theorem processContractRecoveryUpdate_reconciles (cfg : BotConfig)
    (bot : BotState) (contract : ContractInfo) (j : ℕ)
    (asset_state : AssetState) (original_contract : ContractInfo) (ft : ℚ)
    (hfind : findAssetWithContract contract.id bot.asset_states
      = some (j, asset_state))
    (horig : findContract asset_state.active_contracts contract.id
      = some original_contract)
    (hforced : original_contract.forced_result = true)
    (hfin : allContractsFinished (recoveryUpdatedAsset asset_state contract)
      = true)
    (hfl : asset_state.forced_total_loss = some ft)
    (hseq : 1 ≤ asset_state.current_sequence) :
    ∃ (bot' : BotState) (a2 : AssetState),
      processContractRecoveryUpdate cfg bot contract = Except.ok bot' ∧
      bot'.balance = bot.balance +
        (sumProfits (recoveryUpdatedAsset asset_state contract).active_contracts
          - ft) ∧
      bot'.session_current_balance = bot'.balance ∧
      bot'.asset_states = bot.asset_states.set j a2 ∧
      a2.forced_total_loss = none ∧
      a2.active_contracts
        = (recoveryUpdatedAsset asset_state contract).active_contracts ∧
      (operationWon cfg a2 = true → a2.current_sequence = 1) ∧
      (∀ b : ℚ, correctResultsAfterRecovery cfg b a2
        = Except.error "TypeError") ∧
      (∀ bot'' : BotState,
        processContractRecoveryUpdate cfg bot' contract = Except.ok bot'' →
          bot''.balance = bot'.balance) := by
  have hfl' : (recoveryUpdatedAsset asset_state contract).forced_total_loss
      = some ft := hfl
  have hseq' : 1 ≤ (recoveryUpdatedAsset asset_state contract).current_sequence :=
    hseq
  obtain ⟨a2, hcorr, hfl2, hac2, hwon2⟩ :=
    correctResultsAfterRecovery_spec cfg bot.balance
      (recoveryUpdatedAsset asset_state contract) ft hfl' hseq'
  have hrun : processContractRecoveryUpdate cfg bot contract = Except.ok
      { balance := bot.balance +
          (sumProfits (recoveryUpdatedAsset asset_state contract).active_contracts
            - ft),
        session_current_balance := bot.balance +
          (sumProfits (recoveryUpdatedAsset asset_state contract).active_contracts
            - ft),
        asset_states := bot.asset_states.set j a2 } := by
    simp only [processContractRecoveryUpdate, hfind, horig, hfin, hforced,
      and_self, if_true, hcorr]
  refine ⟨_, a2, hrun, rfl, rfl, rfl, hfl2, hac2, hwon2,
    fun b => correctResultsAfterRecovery_cleared cfg b a2 hfl2, ?_⟩
  intro bot'' h2
  have horig2 : findContract a2.active_contracts contract.id
      = some (updateContractFields original_contract contract) := by
    rw [hac2]
    exact findContract_setFirst contract.id
      (fun original => updateContractFields original contract)
      (fun c => rfl) asset_state.active_contracts original_contract horig
  have ha2has : assetHasContract a2 contract.id = true := by
    have hmem := List.mem_of_find?_eq_some horig2
    have hpred := List.find?_some horig2
    unfold assetHasContract
    rw [List.any_eq_true]
    exact ⟨updateContractFields original_contract contract, hmem, hpred⟩
  have hfind2 : findAssetWithContract contract.id (bot.asset_states.set j a2)
      = some (j, a2) :=
    findAssetWithContract_set contract.id a2 ha2has bot.asset_states j
      asset_state hfind
  have hwf2 : (updateContractFields original_contract contract).forced_result
      = false := rfl
  simp only [processContractRecoveryUpdate, hfind2, horig2, hwf2,
    Bool.false_eq_true, and_false, if_false, Except.ok.injEq] at h2
  rw [← h2]

/-- Witness for C1: dual-entry config, one asset holding one forced-lost
contract (amount 1, forced profit −1, forced total −1, sequence 2), a
recovery update confirming it WON with profit 1: the correction is
+1 − (−1) = +2 on a balance of 100, the forced total clears, and the
sequence resets to 1. -/
theorem processContractRecoveryUpdate_reconciles_witness :
    ∃ (bot' : BotState) (a2 : AssetState),
      processContractRecoveryUpdate ⟨true⟩
        ⟨100, 100, [⟨"R_50", 2,
          [{ id := "7", amount := 1, status := ContractStatus.lost,
             profit := -1, forced_result := true }], 1, some (-1)⟩]⟩
        { id := "7", status := ContractStatus.won, profit := 1,
          end_time := some 100, payout := 2 } = Except.ok bot' ∧
      bot'.balance = (100 : ℚ) +
        (sumProfits (recoveryUpdatedAsset
          ⟨"R_50", 2,
            [{ id := "7", amount := 1, status := ContractStatus.lost,
               profit := -1, forced_result := true }], 1, some (-1)⟩
          { id := "7", status := ContractStatus.won, profit := 1,
            end_time := some 100, payout := 2 }).active_contracts - (-1)) ∧
      bot'.session_current_balance = bot'.balance ∧
      bot'.asset_states = [⟨"R_50", 2,
        [{ id := "7", amount := 1, status := ContractStatus.lost,
           profit := -1, forced_result := true }], 1, some (-1)⟩].set 0 a2 ∧
      a2.forced_total_loss = none ∧
      a2.active_contracts = (recoveryUpdatedAsset
        ⟨"R_50", 2,
          [{ id := "7", amount := 1, status := ContractStatus.lost,
             profit := -1, forced_result := true }], 1, some (-1)⟩
        { id := "7", status := ContractStatus.won, profit := 1,
          end_time := some 100, payout := 2 }).active_contracts ∧
      (operationWon ⟨true⟩ a2 = true → a2.current_sequence = 1) ∧
      (∀ b : ℚ, correctResultsAfterRecovery ⟨true⟩ b a2
        = Except.error "TypeError") ∧
      (∀ bot'' : BotState,
        processContractRecoveryUpdate ⟨true⟩ bot'
          { id := "7", status := ContractStatus.won, profit := 1,
            end_time := some 100, payout := 2 } = Except.ok bot'' →
          bot''.balance = bot'.balance) :=
  processContractRecoveryUpdate_reconciles ⟨true⟩
    ⟨100, 100, [⟨"R_50", 2,
      [{ id := "7", amount := 1, status := ContractStatus.lost,
         profit := -1, forced_result := true }], 1, some (-1)⟩]⟩
    { id := "7", status := ContractStatus.won, profit := 1,
      end_time := some 100, payout := 2 }
    0
    ⟨"R_50", 2,
      [{ id := "7", amount := 1, status := ContractStatus.lost,
         profit := -1, forced_result := true }], 1, some (-1)⟩
    { id := "7", amount := 1, status := ContractStatus.lost,
      profit := -1, forced_result := true }
    (-1)
    (by rfl) (by rfl) (by rfl) (by rfl) (by rfl) (by decide)

end RoboPython
